import Mathlib

/-!
Shallow embedding of the UzLeetCode AI-judge backend (src/ai_judge.py,
src/main.py, src/models.py, src/schemas.py) for verification of the
claims of the specification about the submission-judging workflow.

Python dicts whose values are strings (the parsed judge output and the
sentinel results) are embedded as association lists; `dict.get` is list
lookup.  The external service is modelled as an environment assigning to
every attempt index the outcome that attempt observes: a successfully
parsed payload, an HTTP error status (raised by `response.raise_for_status`
as `requests.exceptions.HTTPError`), or any other exception (JSON parse
failure, missing `candidates`, ...).  Time is modelled by recording the
argument of every `time.sleep` call in order.
-/

namespace UzLeetCode

/-- A Python dict with string keys and string values (the shape of every
dict the judging workflow reads fields from). -/
def PyDict : Type := List (String × String)

instance : DecidableEq PyDict := by
  unfold PyDict
  infer_instance

instance : Membership (String × String) PyDict := by
  unfold PyDict
  infer_instance

/-- Python `d.get(k)`: `none` models Python `None`. -/
def PyDict.get (d : PyDict) (k : String) : Option String :=
  List.lookup k d

/-- Python `d.get(k, default)`. -/
def PyDict.getD (d : PyDict) (k : String) (v : String) : String :=
  (PyDict.get d k).getD v

/-- Python truthiness of a dict: an empty dict is falsy. -/
def PyDict.truthy (d : PyDict) : Bool :=
  !(List.isEmpty d)

/-- What one attempt of the judge client observes from the external
service (src/ai_judge.py lines 72-113): a fully parsed payload, an HTTP
error status (`requests.exceptions.HTTPError` from `raise_for_status`,
carrying the exception text), or any other exception (missing
`candidates` key, JSON decode error, ...) caught by the generic
`except Exception` arm. -/
inductive AttemptOutcome where
  | success (d : PyDict)
  | httpError (msg : String)
  | otherError (msg : String)
deriving DecidableEq

/-- True when the attempt does not produce a parsed payload. -/
def AttemptOutcome.isFailure : AttemptOutcome → Bool
  | .success _ => false
  | .httpError _ => true
  | .otherError _ => true

/-- src/ai_judge.py line 70: `max_retries = 3`. -/
def max_retries : Nat := 3

/-- The sentinel dict returned after the last attempt fails with an HTTP
error (src/ai_judge.py lines 94-100). -/
def httpFailureSentinel (msg : String) : PyDict :=
  [("status", "API_CALL_FAILED"),
   ("timeComplexity", "Unknown"),
   ("spaceComplexity", "Unknown"),
   ("critique", "API call failed after " ++ toString max_retries ++
      " attempts. Check API Key and configuration: " ++ msg)]

/-- The sentinel dict returned after the last attempt fails with a
parse/unexpected error (src/ai_judge.py lines 106-112). -/
def parseFailureSentinel (msg : String) : PyDict :=
  [("status", "Error"),
   ("timeComplexity", "Unknown"),
   ("spaceComplexity", "Unknown"),
   ("critique", "AI Judge failed to process structured output: " ++ msg)]

/-- Observable behaviour of one call to `call_gemini_api_structured`:
the returned value (`none` models the `return None` after the loop),
the number of loop iterations executed, and the arguments of the
`time.sleep` calls, in order. -/
structure CallTrace where
  result : Option PyDict
  attempts : Nat
  sleeps : List Nat
deriving DecidableEq

/-- The retry loop `for attempt in range(max_retries)` of
src/ai_judge.py lines 71-113.  `remaining` is the number of iterations
still to run (so `remaining = 1` exactly when `attempt == max_retries - 1`)
and `attempt` is the current 0-based attempt index.  On a failing attempt
that is not the last, the code sleeps `2 ** attempt` and continues. -/
def attemptLoop (env : Nat → AttemptOutcome) : Nat → Nat → CallTrace
  | 0, _ => ⟨none, 0, []⟩
  | remaining + 1, attempt =>
    match env attempt with
    | .success d => ⟨some d, 1, []⟩
    | .httpError msg =>
      if remaining = 0 then ⟨some (httpFailureSentinel msg), 1, []⟩
      else
        let t := attemptLoop env remaining (attempt + 1)
        ⟨t.result, t.attempts + 1, 2 ^ attempt :: t.sleeps⟩
    | .otherError msg =>
      if remaining = 0 then ⟨some (parseFailureSentinel msg), 1, []⟩
      else
        let t := attemptLoop env remaining (attempt + 1)
        ⟨t.result, t.attempts + 1, 2 ^ attempt :: t.sleeps⟩

/-- src/ai_judge.py lines 30-115, `call_gemini_api_structured`: run up
to `max_retries` attempts against the external service, returning the
first successfully parsed payload, or the sentinel dict produced by the
final failing attempt.  (The `return None` on line 115 corresponds to
the fuel-0 base case of `attemptLoop`.) -/
def call_gemini_api_structured (env : Nat → AttemptOutcome) : CallTrace :=
  attemptLoop env max_retries 0

/-- src/models.py, `User` (only the columns the judging workflow reads). -/
structure User where
  id : Nat
  username : String
deriving DecidableEq

/-- src/models.py, `Problem`.  `content`, `default_code` and
`topic_tags_json` are nullable columns, so they are `Option`s. -/
structure Problem where
  slug : String
  title : String
  difficulty : String
  content : Option String
  default_code : Option String
  topic_tags_json : Option String
deriving DecidableEq

/-- src/models.py, `Submission`.  `analysis_json` stores
`json.dumps(analysis_result)`; serialisation is modelled by storing the
dict itself, with `none` standing for the initial literal string-encoded
empty dict. -/
structure Submission where
  user_id : Nat
  problem_slug : String
  code : String
  status : String
  analysis_json : Option PyDict
deriving DecidableEq

/-- The relevant tables of the SQLite database. -/
structure DB where
  users : List User
  problems : List Problem
  submissions : List Submission
deriving DecidableEq

/-- src/schemas.py, `SubmissionModel`: the request body of `/api/submit`
and `/api/judge`. -/
structure SubmissionModel where
  code : String
  problem : String
deriving DecidableEq

/-- A Python exception live inside the `try` block of `create_submission`:
either a `fastapi.HTTPException` (which subclasses `Exception`) or any
other exception, carried with its `str(e)` rendering. -/
inductive PyExc where
  | httpExc (status_code : Nat) (detail : String)
  | otherExc (msg : String)
deriving DecidableEq

/-- Python `str(e)`.  For `HTTPException`, Starlette renders
`f"{self.status_code}: {self.detail}"`; for other exceptions the carried
message. -/
def PyExc.str : PyExc → String
  | .httpExc c d => toString c ++ ": " ++ d
  | .otherExc m => m

/-- The HTTP outcome of a request handler: a success payload or a raised
`HTTPException` with status code and detail.  For `/api/submit` the
success payload carries the final status string and the analysis dict. -/
inductive HttpResult where
  | ok (status : String) (analysis : PyDict)
  | err (code : Nat) (detail : String)
deriving DecidableEq

/-- Python `s[:n]` on a string: the list of its first `n` characters. -/
def pySlice (s : String) (n : Nat) : String :=
  String.mk (s.data.take n)

/-- Python `analysis_result.get("status") not in xs`
(src/main.py line 521, src/ai_judge.py line 130): `None` is not an
element of a list of strings, so an absent key passes the test. -/
def statusNotIn (d : PyDict) (xs : List String) : Bool :=
  match PyDict.get d "status" with
  | none => true
  | some s => !(xs.contains s)

/-- src/main.py line 521 guard:
`analysis_result and analysis_result.get("status") not in ["Error", "API_KEY_ERROR", "API_CALL_FAILED"]`. -/
def submitSuccessGuard (d : PyDict) : Bool :=
  d.truthy && statusNotIn d ["Error", "API_KEY_ERROR", "API_CALL_FAILED"]

/-- src/main.py line 541 guard:
`analysis_result and analysis_result.get("status") == "API_KEY_ERROR"`. -/
def apiKeyErrorGuard (d : PyDict) : Bool :=
  d.truthy && (PyDict.get d "status" == some "API_KEY_ERROR")

/-- src/ai_judge.py line 130 guard:
`analysis_result and analysis_result.get("status") not in ["Error", "API_CALL_FAILED"]`. -/
def judgeSuccessGuard (d : PyDict) : Bool :=
  d.truthy && statusNotIn d ["Error", "API_CALL_FAILED"]

/-- Observable behaviour of one `/api/submit` request
(src/main.py lines 480-553): the HTTP outcome, the database after the
handler returns, whether a `Pending` submission row was inserted, every
value assigned to `new_submission.status` after creation (in order), and
the `problem` argument passed to `call_gemini_api_structured` when the
judge was invoked. -/
structure SubmitTrace where
  response : HttpResult
  dbAfter : DB
  submissionCreated : Bool
  statusWrites : List String
  judgeCalledWith : Option String
deriving DecidableEq

/-- Appends the (single) new submission row in its final committed state. -/
def DB.pushSub (db : DB) (s : Submission) : DB :=
  { db with submissions := db.submissions ++ [s] }

/-- src/main.py lines 480-553, `create_submission` (`POST /api/submit`),
with the external service modelled by `env`.

The `raise HTTPException(...)` on line 544 executes inside the `try`
block of lines 509-553, and `fastapi.HTTPException` subclasses
`Exception`, so the `except Exception` arm on line 549 catches it,
overwrites the status with `"System Error"` and re-raises a 500 whose
detail wraps `str(e)`.  Likewise, when the `content` column of the cached problem
column is null, `problem_data.content[:500]` on line 513 raises
`TypeError("\x27NoneType\x27 object is not subscriptable")` before the
judge is invoked, and when the judge returns `None`, line 534 raises
`AttributeError` before any status write. -/
def create_submission (db : DB) (submission : SubmissionModel)
    (env : Nat → AttemptOutcome) : SubmitTrace :=
  match db.users.head? with
  | none =>
    ⟨.err 401 "No users registered. Please sign up first.", db, false, [], none⟩
  | some authenticated_user =>
    match db.problems.find? (fun p => p.slug == submission.problem) with
    | none =>
      ⟨.err 404 ("Problem \x27" ++ submission.problem ++ "\x27 not found in cache."),
       db, false, [], none⟩
    | some problem_data =>
      let s0 : Submission :=
        { user_id := authenticated_user.id
          problem_slug := submission.problem
          code := submission.code
          status := "Pending"
          analysis_json := none }
      match problem_data.content with
      | none =>
        let e : PyExc := .otherExc "\x27NoneType\x27 object is not subscriptable"
        ⟨.err 500 ("An unexpected error occurred during judging: " ++ e.str),
         db.pushSub { s0 with status := "System Error" },
         true, ["System Error"], none⟩
      | some content =>
        let problem_description :=
          "Problem Title: " ++ problem_data.title ++
          "\nDifficulty: " ++ problem_data.difficulty ++
          "\nContent: " ++ pySlice content 500 ++ "..."
        let t := call_gemini_api_structured env
        match t.result with
        | some analysis_result =>
          if submitSuccessGuard analysis_result then
            let st := analysis_result.getD "status" "Unknown"
            ⟨.ok st analysis_result,
             db.pushSub { s0 with status := st, analysis_json := some analysis_result },
             true, [st], some problem_description⟩
          else
            let error_critique :=
              analysis_result.getD "critique" "AI Judge returned an unknown error."
            let status_code : Nat :=
              if apiKeyErrorGuard analysis_result then 401 else 500
            let e : PyExc := .httpExc status_code
              ("AI Judge failed to produce a valid analysis: " ++ error_critique)
            ⟨.err 500 ("An unexpected error occurred during judging: " ++ e.str),
             db.pushSub { s0 with status := "System Error", analysis_json := some analysis_result },
             true, ["Failed", "System Error"], some problem_description⟩
        | none =>
          let e : PyExc := .otherExc "\x27NoneType\x27 object has no attribute \x27get\x27"
          ⟨.err 500 ("An unexpected error occurred during judging: " ++ e.str),
           db.pushSub { s0 with status := "System Error" },
           true, ["System Error"], some problem_description⟩

/-- src/main.py lines 306-315, the row `cache_problems` inserts for a
newly seen slug: metadata only, `content` (and the other detail columns)
left null until `/problem/{slug}` fetches them on demand. -/
def cachedProblem (slug title difficulty : String) : Problem :=
  { slug := slug
    title := title
    difficulty := difficulty
    content := none
    default_code := none
    topic_tags_json := none }

/-- The HTTP outcome of the standalone `/api/judge` endpoint. -/
inductive JudgeResponse where
  | processed (analysis : PyDict)
  | err (code : Nat) (detail : String)
deriving DecidableEq

/-- Observable behaviour of one `/api/judge` request. -/
structure JudgeTrace where
  response : JudgeResponse
  judgeCalledWith : String
deriving DecidableEq

/-- src/ai_judge.py lines 121-141, `judge_code` (`POST /api/judge`):
builds the problem description from the slug alone, invokes the judge
client, and maps its result to the HTTP outcome.  The handler takes no
database session. -/
def judge_code (submission : SubmissionModel)
    (env : Nat → AttemptOutcome) : JudgeTrace :=
  let problem_description :=
    "Problem Slug: " ++ submission.problem ++ ". The task is to solve this problem."
  let t := call_gemini_api_structured env
  match t.result with
  | some analysis_result =>
    if judgeSuccessGuard analysis_result then
      ⟨.processed analysis_result, problem_description⟩
    else
      let critique_detail :=
        if analysis_result.truthy then
          analysis_result.getD "critique" "Unknown error"
        else "Unknown error"
      ⟨.err 500 ("AI Judge failed to produce a valid analysis: " ++ critique_detail),
       problem_description⟩
  | none =>
    ⟨.err 500 ("AI Judge failed to produce a valid analysis: Unknown error"),
     problem_description⟩

/-- The `/api/judge` handler lifted to the application state: since
`judge_code` takes no database session (src/ai_judge.py line 122), the
database component is untouched. -/
def judge_code_endpoint (db : DB) (submission : SubmissionModel)
    (env : Nat → AttemptOutcome) : DB × JudgeResponse :=
  (db, (judge_code submission env).response)

/-! Concrete inputs used to evaluate the embedded handlers. -/

/-- A registered user (the first row of the `users` table). -/
def demoUser : User := { id := 1, username := "alice" }

/-- A cached problem whose details have been fetched (`content` non-null). -/
def demoProblem : Problem :=
  { slug := "two-sum"
    title := "Two Sum"
    difficulty := "Easy"
    content := some "Given an array of integers nums and an integer target, return indices of the two numbers such that they add up to target."
    default_code := none
    topic_tags_json := none }

/-- A database with one registered user and one fully cached problem. -/
def demoDB : DB := { users := [demoUser], problems := [demoProblem], submissions := [] }

/-- A submission request for the cached problem. -/
def demoSubmission : SubmissionModel :=
  { code := "def twoSum(nums, target): pass", problem := "two-sum" }

/-- An external service returning an HTTP error status on every attempt. -/
def allHttpErrorEnv : Nat → AttemptOutcome :=
  fun _ => .httpError "500 Server Error: Internal Server Error"

/-- An external service whose response never parses on any attempt. -/
def allParseErrorEnv : Nat → AttemptOutcome :=
  fun _ => .otherError "Expecting value: line 1 column 1 (char 0)"

/-- A successfully parsed, non-sentinel judge verdict. -/
def acceptedAnalysis : PyDict :=
  [("status", "Accepted"), ("timeComplexity", "O(n)"),
   ("spaceComplexity", "O(n)"), ("critique", "Yechim samarali.")]

/-- An external service that succeeds immediately with `acceptedAnalysis`. -/
def acceptedEnv : Nat → AttemptOutcome := fun _ => .success acceptedAnalysis

/-- A parsed judge payload whose status is the API-key sentinel the
orchestrator checks for on src/main.py line 541. -/
def apiKeyErrorAnalysis : PyDict :=
  [("status", "API_KEY_ERROR"), ("critique", "API key not configured")]

/-- An external service that returns `apiKeyErrorAnalysis` at once. -/
def apiKeyErrorEnv : Nat → AttemptOutcome := fun _ => .success apiKeyErrorAnalysis

/-- A problem content longer than 500 characters. -/
def longContent : String := String.mk (List.replicate 600 'a')

/-- A cached problem with details fetched and content longer than 500
characters. -/
def longProblem : Problem :=
  { slug := "long-sum"
    title := "Long Sum"
    difficulty := "Hard"
    content := some longContent
    default_code := none
    topic_tags_json := none }

/-- A database holding `longProblem` and one user. -/
def longDB : DB := { users := [demoUser], problems := [longProblem], submissions := [] }

/-- A submission request for `longProblem`. -/
def longSubmission : SubmissionModel := { code := "pass", problem := "long-sum" }

/-- A database whose only problem was cached by `cache_problems` and
whose details were never fetched (null `content`). -/
def metadataOnlyDB : DB :=
  { users := [demoUser]
    problems := [cachedProblem "three-sum" "3Sum" "Medium"]
    submissions := [] }

/-- A submission request for the metadata-only problem. -/
def metadataOnlySubmission : SubmissionModel :=
  { code := "pass", problem := "three-sum" }

/-! Helper lemmas shared by several claim theorems. -/

/-- Closed-form value of the result of the judge client: the first parsed
payload, else the sentinel of the final failing attempt. -/
lemma call_result_spec (env : Nat → AttemptOutcome) :
    (call_gemini_api_structured env).result =
      match env 0 with
      | .success d => some d
      | _ =>
        match env 1 with
        | .success d => some d
        | _ =>
          match env 2 with
          | .success d => some d
          | .httpError m => some (httpFailureSentinel m)
          | .otherError m => some (parseFailureSentinel m) := by
  cases hh0 : env 0 <;> cases hh1 : env 1 <;> cases hh2 : env 2 <;>
    simp [call_gemini_api_structured, max_retries, attemptLoop, hh0, hh1, hh2]

/-- Every dict the judge client returns is either the payload of a
successful attempt or carries one of the two sentinel statuses. -/
lemma call_result_sentinel_or_success (env : Nat → AttemptOutcome) (d : PyDict)
    (hd : (call_gemini_api_structured env).result = some d) :
    (∃ i, i < max_retries ∧ env i = .success d) ∨
    PyDict.get d "status" = some "API_CALL_FAILED" ∨
    PyDict.get d "status" = some "Error" := by
  rcases hh0 : env 0 with d0 | m0 | m0 <;> rcases hh1 : env 1 with d1 | m1 | m1 <;>
    rcases hh2 : env 2 with d2 | m2 | m2 <;>
    simp only [call_result_spec env, hh0, hh1, hh2, Option.some.injEq] at hd <;>
    first
      | exact Or.inl ⟨0, by norm_num [max_retries], by rw [hh0, hd]⟩
      | exact Or.inl ⟨1, by norm_num [max_retries], by rw [hh1, hd]⟩
      | exact Or.inl ⟨2, by norm_num [max_retries], by rw [hh2, hd]⟩
      | (subst hd; simp [httpFailureSentinel, parseFailureSentinel, PyDict.get, List.lookup])

/-- The status the orchestrator stores on the success branch is not a
sentinel value when the line-521 guard let it through. -/
lemma getD_status_not_sentinel (d : PyDict)
    (h : statusNotIn d ["Error", "API_KEY_ERROR", "API_CALL_FAILED"] = true) :
    PyDict.getD d "status" "Unknown" ≠ "Error" ∧
    PyDict.getD d "status" "Unknown" ≠ "API_CALL_FAILED" := by
  unfold statusNotIn at h
  unfold PyDict.getD
  cases hg : PyDict.get d "status" with
  | none => simp
  | some s =>
    rw [hg] at h
    simp only [Bool.not_eq_true', List.contains_eq_any_beq] at h
    simp only [Option.getD_some]
    constructor <;> rintro rfl <;> simp [List.any] at h

/-- Exhaustive description of the status-write trace of one
`/api/submit` request, by the branch the handler took. -/
lemma create_submission_cases (db : DB) (sub : SubmissionModel)
    (env : Nat → AttemptOutcome) :
    ((create_submission db sub env).statusWrites = [] ∧
      (create_submission db sub env).judgeCalledWith = none) ∨
    ((create_submission db sub env).statusWrites = ["System Error"] ∧
      (create_submission db sub env).judgeCalledWith = none) ∨
    ((call_gemini_api_structured env).result = none ∧
      (create_submission db sub env).statusWrites = ["System Error"]) ∨
    (∃ d, (call_gemini_api_structured env).result = some d ∧
      submitSuccessGuard d = true ∧
      (create_submission db sub env).statusWrites = [PyDict.getD d "status" "Unknown"] ∧
      (create_submission db sub env).judgeCalledWith ≠ none) ∨
    (∃ d, (call_gemini_api_structured env).result = some d ∧
      submitSuccessGuard d = false ∧
      (create_submission db sub env).statusWrites = ["Failed", "System Error"] ∧
      (create_submission db sub env).judgeCalledWith ≠ none) := by
  unfold create_submission
  cases hu : db.users.head? with
  | none => simp [hu]
  | some u =>
    cases hp : db.problems.find? (fun p => p.slug == sub.problem) with
    | none => simp [hp]
    | some p =>
      cases hpc : p.content with
      | none => simp [hpc]
      | some c =>
        cases hres : (call_gemini_api_structured env).result with
        | none => simp [hu, hp, hpc, hres]
        | some d =>
          by_cases hb : submitSuccessGuard d = true
          · right; right; right; left
            exact ⟨d, rfl, hb, by simp [hu, hp, hpc, hres, hb],
              by simp [hu, hp, hpc, hres, hb]⟩
          · rw [Bool.not_eq_true] at hb
            right; right; right; right
            exact ⟨d, rfl, hb, by simp [hu, hp, hpc, hres, hb],
              by simp [hu, hp, hpc, hres, hb]⟩

/-! Theorems settling the claims. -/

/-- C1: when every attempt fails (HTTP error status or parse/structural
error), `call_gemini_api_structured` makes exactly 3 total attempts and
yields a sentinel result, and the backoff delays are 1 time unit before
the second attempt and 2 before the third, with no delay after the final
attempt. -/
theorem retry_three_attempts_with_backoff (env : Nat → AttemptOutcome)
    (h0 : (env 0).isFailure = true) (h1 : (env 1).isFailure = true)
    (h2 : (env 2).isFailure = true) :
    (call_gemini_api_structured env).attempts = 3 ∧
    (call_gemini_api_structured env).sleeps = [1, 2] ∧
    ∃ d, (call_gemini_api_structured env).result = some d ∧
      (PyDict.get d "status" = some "API_CALL_FAILED" ∨
       PyDict.get d "status" = some "Error") := by
  cases hh0 : env 0 <;> cases hh1 : env 1 <;> cases hh2 : env 2 <;>
    simp_all [call_gemini_api_structured, max_retries, attemptLoop,
      AttemptOutcome.isFailure, httpFailureSentinel, parseFailureSentinel,
      PyDict.get, List.lookup]

/-- Witness for C1 at a concrete always-failing service. -/
theorem retry_three_attempts_with_backoff_witness :
    (call_gemini_api_structured allHttpErrorEnv).attempts = 3 ∧
    (call_gemini_api_structured allHttpErrorEnv).sleeps = [1, 2] ∧
    ∃ d, (call_gemini_api_structured allHttpErrorEnv).result = some d ∧
      (PyDict.get d "status" = some "API_CALL_FAILED" ∨
       PyDict.get d "status" = some "Error") :=
  retry_three_attempts_with_backoff allHttpErrorEnv rfl rfl rfl

/-- C4: `call_gemini_api_structured` never propagates a failure to its
caller: every call returns a result (the embedding is a total function
and the value is never the post-loop `None`), and when every attempt
fails the returned sentinel has status `API_CALL_FAILED` for an HTTP
error on the final attempt and `Error` otherwise, with a critique
carrying the triggering exception detail. -/
theorem judge_client_shields_caller (env : Nat → AttemptOutcome) (m : String)
    (h0 : (env 0).isFailure = true) (h1 : (env 1).isFailure = true) :
    (∀ e : Nat → AttemptOutcome, ∃ d, (call_gemini_api_structured e).result = some d) ∧
    (env 2 = .httpError m →
      (call_gemini_api_structured env).result = some (httpFailureSentinel m)) ∧
    (env 2 = .otherError m →
      (call_gemini_api_structured env).result = some (parseFailureSentinel m)) ∧
    PyDict.get (httpFailureSentinel m) "status" = some "API_CALL_FAILED" ∧
    PyDict.get (httpFailureSentinel m) "critique" =
      some ("API call failed after 3 attempts. Check API Key and configuration: " ++ m) ∧
    PyDict.get (parseFailureSentinel m) "status" = some "Error" ∧
    PyDict.get (parseFailureSentinel m) "critique" =
      some ("AI Judge failed to process structured output: " ++ m) := by
  refine ⟨?_, ?_, ?_, ?_, ?_, ?_, ?_⟩
  · intro e
    cases hh0 : e 0 <;> cases hh1 : e 1 <;> cases hh2 : e 2 <;>
      simp_all [call_gemini_api_structured, max_retries, attemptLoop]
  · intro hh2
    cases hh0 : env 0 <;> cases hh1 : env 1 <;>
      simp_all [call_gemini_api_structured, max_retries, attemptLoop,
        AttemptOutcome.isFailure]
  · intro hh2
    cases hh0 : env 0 <;> cases hh1 : env 1 <;>
      simp_all [call_gemini_api_structured, max_retries, attemptLoop,
        AttemptOutcome.isFailure]
  · rfl
  · show some _ = some _
    rw [show "API call failed after " ++ toString max_retries ++
      " attempts. Check API Key and configuration: " =
      "API call failed after 3 attempts. Check API Key and configuration: " from rfl]
  · rfl
  · rfl

/-- Witness for C4 at a concrete service whose responses never parse. -/
theorem judge_client_shields_caller_witness :
    (∀ e : Nat → AttemptOutcome, ∃ d, (call_gemini_api_structured e).result = some d) ∧
    (allParseErrorEnv 2 = .httpError "Expecting value: line 1 column 1 (char 0)" →
      (call_gemini_api_structured allParseErrorEnv).result =
        some (httpFailureSentinel "Expecting value: line 1 column 1 (char 0)")) ∧
    (allParseErrorEnv 2 = .otherError "Expecting value: line 1 column 1 (char 0)" →
      (call_gemini_api_structured allParseErrorEnv).result =
        some (parseFailureSentinel "Expecting value: line 1 column 1 (char 0)")) ∧
    PyDict.get (httpFailureSentinel "Expecting value: line 1 column 1 (char 0)") "status" =
      some "API_CALL_FAILED" ∧
    PyDict.get (httpFailureSentinel "Expecting value: line 1 column 1 (char 0)") "critique" =
      some ("API call failed after 3 attempts. Check API Key and configuration: " ++
        "Expecting value: line 1 column 1 (char 0)") ∧
    PyDict.get (parseFailureSentinel "Expecting value: line 1 column 1 (char 0)") "status" =
      some "Error" ∧
    PyDict.get (parseFailureSentinel "Expecting value: line 1 column 1 (char 0)") "critique" =
      some ("AI Judge failed to process structured output: " ++
        "Expecting value: line 1 column 1 (char 0)") :=
  judge_client_shields_caller allParseErrorEnv
    "Expecting value: line 1 column 1 (char 0)" rfl rfl

/-- C2: evaluation at a run where every judge attempt fails with an HTTP
error (known problem, registered user): the handler writes the status
field twice after creation — first `Failed`, then `System Error` when its
own `HTTPException` is caught by the `except Exception` arm — refuting
the single-transition claim. -/
theorem submit_sentinel_double_status_write :
    (create_submission demoDB demoSubmission allHttpErrorEnv).statusWrites =
      ["Failed", "System Error"] ∧
    (create_submission demoDB demoSubmission allHttpErrorEnv).statusWrites.length ≠ 1 :=
  ⟨by decide, by decide⟩

/-- C3: evaluation at a run where the judge service returns an HTTP
error on all 3 attempts: the caller does receive a 500 whose detail
contains "API call failed after 3 attempts", but the final stored status
is `System Error`, not `Failed` — the `Failed` write is overwritten when
the own `HTTPException` of the handler is caught by its `except Exception`
arm. -/
theorem submit_http_error_stored_system_error :
    ((create_submission demoDB demoSubmission allHttpErrorEnv).dbAfter.submissions.getLast?).map
      Submission.status = some "System Error" ∧
    "System Error" ≠ "Failed" ∧
    (create_submission demoDB demoSubmission allHttpErrorEnv).response =
      .err 500
        ("An unexpected error occurred during judging: 500: AI Judge failed to produce a valid analysis: API call failed after 3 attempts. Check API Key and configuration: 500 Server Error: Internal Server Error") ∧
    ∃ pre post,
      ("An unexpected error occurred during judging: 500: AI Judge failed to produce a valid analysis: API call failed after 3 attempts. Check API Key and configuration: 500 Server Error: Internal Server Error" : String) =
        pre ++ "API call failed after 3 attempts" ++ post :=
  ⟨by decide, by decide, by rfl,
   "An unexpected error occurred during judging: 500: AI Judge failed to produce a valid analysis: ",
   ". Check API Key and configuration: 500 Server Error: Internal Server Error", by rfl⟩

/-- C5 counterexample: a run in which the judge client yields the parse
sentinel (status `Error`): the final stored status of the submission is
`System Error`, not the `Failed` the claim asserts the orchestrator
stores instead. -/
theorem sentinel_mapping_counterexample :
    ((call_gemini_api_structured allParseErrorEnv).result.map
      (fun d => PyDict.get d "status")) = some (some "Error") ∧
    ((create_submission demoDB demoSubmission allParseErrorEnv).dbAfter.submissions.getLast?).map
      Submission.status = some "System Error" ∧
    "System Error" ≠ "Failed" :=
  ⟨by rfl, by decide, by decide⟩

/-- C5 amended: every judge-client result is either a successful
payload of a successful attempt or carries sentinel status `API_CALL_FAILED`/`Error`;
no value the orchestrator ever writes to the status field of a submission is
a sentinel status; and when the judge was invoked and its result fails
the line-521 guard, the write sequence is `Failed` then `System Error`
(so the final stored value is `System Error`, not `Failed`). -/
theorem sentinel_status_never_stored (env : Nat → AttemptOutcome) (db : DB)
    (sub : SubmissionModel) (d : PyDict) (s : String)
    (hd : (call_gemini_api_structured env).result = some d)
    (hs : s ∈ (create_submission db sub env).statusWrites) :
    ((∃ i, i < max_retries ∧ env i = .success d) ∨
     PyDict.get d "status" = some "API_CALL_FAILED" ∨
     PyDict.get d "status" = some "Error") ∧
    s ≠ "Error" ∧ s ≠ "API_CALL_FAILED" ∧
    ((create_submission db sub env).judgeCalledWith ≠ none →
      submitSuccessGuard d = false →
      (create_submission db sub env).statusWrites = ["Failed", "System Error"]) := by
  have hboth : s ≠ "Error" ∧ s ≠ "API_CALL_FAILED" := by
    rcases create_submission_cases db sub env with
      ⟨h1, _⟩ | ⟨h1, _⟩ | ⟨_, h1⟩ | ⟨d2, _, hg, h1, _⟩ | ⟨d2, _, _, h1, _⟩
    · rw [h1] at hs; simp at hs
    · rw [h1] at hs; simp at hs; subst hs; exact ⟨by decide, by decide⟩
    · rw [h1] at hs; simp at hs; subst hs; exact ⟨by decide, by decide⟩
    · rw [h1] at hs; simp at hs; subst hs
      have hst : statusNotIn d2 ["Error", "API_KEY_ERROR", "API_CALL_FAILED"] = true := by
        simp only [submitSuccessGuard, Bool.and_eq_true] at hg
        exact hg.2
      exact getD_status_not_sentinel d2 hst
    · rw [h1] at hs; simp at hs
      rcases hs with rfl | rfl
      · exact ⟨by decide, by decide⟩
      · exact ⟨by decide, by decide⟩
  refine ⟨call_result_sentinel_or_success env d hd, hboth.1, hboth.2, ?_⟩
  intro hj hg2
  rcases create_submission_cases db sub env with
    ⟨_, h2⟩ | ⟨_, h2⟩ | ⟨h2, _⟩ | ⟨d2, hd2, hg, _, _⟩ | ⟨d2, hd2, _, h1, _⟩
  · exact absurd h2 hj
  · exact absurd h2 hj
  · rw [h2] at hd; cases hd
  · rw [hd2] at hd
    injection hd with hdd
    subst hdd
    simp [hg] at hg2
  · exact h1

/-- Witness for the amended C5 at a concrete all-HTTP-error run, with
the status write `Failed`. -/
theorem sentinel_status_never_stored_witness :
    ((∃ i, i < max_retries ∧
        allHttpErrorEnv i =
          .success (httpFailureSentinel "500 Server Error: Internal Server Error")) ∨
     PyDict.get (httpFailureSentinel "500 Server Error: Internal Server Error") "status" =
       some "API_CALL_FAILED" ∨
     PyDict.get (httpFailureSentinel "500 Server Error: Internal Server Error") "status" =
       some "Error") ∧
    "Failed" ≠ "Error" ∧ "Failed" ≠ "API_CALL_FAILED" ∧
    ((create_submission demoDB demoSubmission allHttpErrorEnv).judgeCalledWith ≠ none →
      submitSuccessGuard (httpFailureSentinel "500 Server Error: Internal Server Error") = false →
      (create_submission demoDB demoSubmission allHttpErrorEnv).statusWrites =
        ["Failed", "System Error"]) :=
  sentinel_status_never_stored allHttpErrorEnv demoDB demoSubmission
    (httpFailureSentinel "500 Server Error: Internal Server Error") "Failed"
    (by rfl) (by decide)

/-- C6: evaluation at a run whose parsed judge payload has status
`API_KEY_ERROR` (the one status the line-541 check classifies as an
API-key configuration problem): the handler raises `HTTPException(401)`,
but its own `except Exception` arm catches it, so the caller receives
500 (never 401) and the final stored status is `System Error`, not
`Failed`. -/
theorem submit_api_key_sentinel_rewrapped :
    (create_submission demoDB demoSubmission apiKeyErrorEnv).response =
      .err 500
        ("An unexpected error occurred during judging: 401: AI Judge failed to produce a valid analysis: API key not configured") ∧
    (∀ detail, (create_submission demoDB demoSubmission apiKeyErrorEnv).response ≠
      .err 401 detail) ∧
    ((create_submission demoDB demoSubmission apiKeyErrorEnv).dbAfter.submissions.getLast?).map
      Submission.status = some "System Error" := by
  refine ⟨by rfl, ?_, by decide⟩
  intro detail h
  rw [show (create_submission demoDB demoSubmission apiKeyErrorEnv).response =
    .err 500
      ("An unexpected error occurred during judging: 401: AI Judge failed to produce a valid analysis: API key not configured")
    from rfl] at h
  simp at h

/-- C7: for every `/api/submit` request that reaches submission
creation (a user is registered and the problem is cached), the handler
writes the status at least once — the row is never left `Pending` — and
the final stored status is `System Error`, `Failed`, or the accepted
non-sentinel judge verdict status. -/
theorem submit_never_left_pending (db : DB) (sub : SubmissionModel)
    (env : Nat → AttemptOutcome) (u : User) (p : Problem)
    (hu : db.users.head? = some u)
    (hp : db.problems.find? (fun q => q.slug == sub.problem) = some p) :
    (create_submission db sub env).submissionCreated = true ∧
    (create_submission db sub env).statusWrites ≠ [] ∧
    ∃ fin, ((create_submission db sub env).dbAfter.submissions.getLast?).map
        Submission.status = some fin ∧
      (create_submission db sub env).statusWrites.getLast? = some fin ∧
      (fin = "System Error" ∨ fin = "Failed" ∨
        ∃ d, (call_gemini_api_structured env).result = some d ∧
          submitSuccessGuard d = true ∧ fin = PyDict.getD d "status" "Unknown") := by
  cases hpc : p.content with
  | none =>
    refine ⟨?_, ?_, "System Error", ?_, ?_, Or.inl rfl⟩ <;>
      simp [create_submission, hu, hp, hpc, DB.pushSub]
  | some c =>
    cases hres : (call_gemini_api_structured env).result with
    | none =>
      refine ⟨?_, ?_, "System Error", ?_, ?_, Or.inl rfl⟩ <;>
        simp [create_submission, hu, hp, hpc, hres, DB.pushSub]
    | some d =>
      by_cases hb : submitSuccessGuard d = true
      · refine ⟨?_, ?_, PyDict.getD d "status" "Unknown", ?_, ?_,
          Or.inr (Or.inr ⟨d, rfl, hb, rfl⟩)⟩ <;>
          simp [create_submission, hu, hp, hpc, hres, hb, DB.pushSub]
      · rw [Bool.not_eq_true] at hb
        refine ⟨?_, ?_, "System Error", ?_, ?_, Or.inl rfl⟩ <;>
          simp [create_submission, hu, hp, hpc, hres, hb, DB.pushSub]

/-- Witness for C7 at a concrete run whose judge verdict is Accepted. -/
theorem submit_never_left_pending_witness :
    (create_submission demoDB demoSubmission acceptedEnv).submissionCreated = true ∧
    (create_submission demoDB demoSubmission acceptedEnv).statusWrites ≠ [] ∧
    ∃ fin, ((create_submission demoDB demoSubmission acceptedEnv).dbAfter.submissions.getLast?).map
        Submission.status = some fin ∧
      (create_submission demoDB demoSubmission acceptedEnv).statusWrites.getLast? = some fin ∧
      (fin = "System Error" ∨ fin = "Failed" ∨
        ∃ d, (call_gemini_api_structured acceptedEnv).result = some d ∧
          submitSuccessGuard d = true ∧ fin = PyDict.getD d "status" "Unknown") :=
  submit_never_left_pending demoDB demoSubmission acceptedEnv demoUser demoProblem
    (by rfl) (by rfl)

/-- C8: when the content of the resolved problem is longer than 500
characters, the problem description passed to the judge client ends in
exactly the first 500 characters of the content followed by the ellipsis
marker. -/
theorem submit_truncates_problem_content (db : DB) (sub : SubmissionModel)
    (env : Nat → AttemptOutcome) (u : User) (p : Problem) (c : String)
    (hu : db.users.head? = some u)
    (hp : db.problems.find? (fun q => q.slug == sub.problem) = some p)
    (hc : p.content = some c) (hlen : 500 < c.length) :
    (create_submission db sub env).judgeCalledWith =
      some ("Problem Title: " ++ p.title ++ "\nDifficulty: " ++ p.difficulty ++
            "\nContent: " ++ pySlice c 500 ++ "...") ∧
    (pySlice c 500).data = c.data.take 500 ∧
    (pySlice c 500).length = 500 := by
  refine ⟨?_, rfl, ?_⟩
  · cases hres : (call_gemini_api_structured env).result with
    | none => simp [create_submission, hu, hp, hc, hres]
    | some d =>
      by_cases hb : submitSuccessGuard d = true
      · simp [create_submission, hu, hp, hc, hres, hb]
      · rw [Bool.not_eq_true] at hb
        simp [create_submission, hu, hp, hc, hres, hb]
  · show (c.data.take 500).length = 500
    rw [List.length_take]
    have h2 : 500 < c.data.length := hlen
    omega

/-- Witness for C8 at a 600-character problem content. -/
theorem submit_truncates_problem_content_witness :
    (create_submission longDB longSubmission acceptedEnv).judgeCalledWith =
      some ("Problem Title: " ++ longProblem.title ++ "\nDifficulty: " ++
            longProblem.difficulty ++ "\nContent: " ++ pySlice longContent 500 ++ "...") ∧
    (pySlice longContent 500).data = longContent.data.take 500 ∧
    (pySlice longContent 500).length = 500 :=
  submit_truncates_problem_content longDB longSubmission acceptedEnv demoUser
    longProblem longContent (by rfl) (by rfl) (by rfl)
    (by rw [show longContent.length = 600 from List.length_replicate 600 _]; norm_num)

/-- C9: the standalone `/api/judge` endpoint leaves the database
untouched, builds its problem description from the slug alone, returns
the Processed payload when the judge result passes the non-sentinel
guard, and otherwise raises a 500 whose detail carries the judge
critique. -/
theorem judge_endpoint_frame_and_mapping (db : DB) (sub : SubmissionModel)
    (env : Nat → AttemptOutcome) (d : PyDict)
    (hd : (call_gemini_api_structured env).result = some d) :
    (judge_code_endpoint db sub env).1 = db ∧
    (judge_code sub env).judgeCalledWith =
      ("Problem Slug: " ++ sub.problem ++ ". The task is to solve this problem.") ∧
    (judgeSuccessGuard d = true →
      (judge_code sub env).response = .processed d) ∧
    (judgeSuccessGuard d = false →
      (judge_code sub env).response =
        .err 500 ("AI Judge failed to produce a valid analysis: " ++
          (if d.truthy then PyDict.getD d "critique" "Unknown error"
           else "Unknown error"))) := by
  refine ⟨rfl, ?_, ?_, ?_⟩
  · simp only [judge_code, hd]
    split <;> rfl
  · intro hb
    simp [judge_code, hd, hb]
  · intro hb
    simp [judge_code, hd, hb]

/-- Witness for C9 at an immediately successful judge call. -/
theorem judge_endpoint_frame_and_mapping_witness :
    (judge_code_endpoint demoDB demoSubmission acceptedEnv).1 = demoDB ∧
    (judge_code demoSubmission acceptedEnv).judgeCalledWith =
      ("Problem Slug: " ++ demoSubmission.problem ++ ". The task is to solve this problem.") ∧
    (judgeSuccessGuard acceptedAnalysis = true →
      (judge_code demoSubmission acceptedEnv).response = .processed acceptedAnalysis) ∧
    (judgeSuccessGuard acceptedAnalysis = false →
      (judge_code demoSubmission acceptedEnv).response =
        .err 500 ("AI Judge failed to produce a valid analysis: " ++
          (if acceptedAnalysis.truthy then PyDict.getD acceptedAnalysis "critique" "Unknown error"
           else "Unknown error"))) :=
  judge_endpoint_frame_and_mapping demoDB demoSubmission acceptedEnv acceptedAnalysis (by rfl)

/-- C10: submitting against a problem cached by `cache_problems` whose
details were never fetched (null content) creates the Pending row, never
invokes the judge, marks the submission `System Error`, and returns a
500 to the caller. -/
theorem submit_null_content_system_error (db : DB) (sub : SubmissionModel)
    (env : Nat → AttemptOutcome) (u : User) (s ti di : String)
    (hu : db.users.head? = some u)
    (hp : db.problems.find? (fun q => q.slug == sub.problem) =
      some (cachedProblem s ti di)) :
    (create_submission db sub env).submissionCreated = true ∧
    (create_submission db sub env).judgeCalledWith = none ∧
    (create_submission db sub env).statusWrites = ["System Error"] ∧
    ((create_submission db sub env).dbAfter.submissions.getLast?).map
      Submission.status = some "System Error" ∧
    ∃ detail, (create_submission db sub env).response = .err 500 detail := by
  refine ⟨?_, ?_, ?_, ?_, ?_⟩ <;>
    simp [create_submission, hu, hp, cachedProblem, DB.pushSub]

/-- Witness for C10 at a metadata-only cached problem. -/
theorem submit_null_content_system_error_witness :
    (create_submission metadataOnlyDB metadataOnlySubmission allParseErrorEnv).submissionCreated = true ∧
    (create_submission metadataOnlyDB metadataOnlySubmission allParseErrorEnv).judgeCalledWith = none ∧
    (create_submission metadataOnlyDB metadataOnlySubmission allParseErrorEnv).statusWrites =
      ["System Error"] ∧
    ((create_submission metadataOnlyDB metadataOnlySubmission allParseErrorEnv).dbAfter.submissions.getLast?).map
      Submission.status = some "System Error" ∧
    ∃ detail, (create_submission metadataOnlyDB metadataOnlySubmission allParseErrorEnv).response =
      .err 500 detail :=
  submit_null_content_system_error metadataOnlyDB metadataOnlySubmission allParseErrorEnv
    demoUser "three-sum" "3Sum" "Medium" (by rfl) (by rfl)

end UzLeetCode
